import Mathlib

set_option maxHeartbeats 1000000

/-! Shallow embedding of bevy_mod_mesh_tools (src/lib.rs).

f32 values are modelled as exact rationals. The f32 square root used by
glam's Vec3::normalize_or_zero has no rational counterpart, so every
operation that normalizes vectors takes the square-root function as an
explicit parameter named sq; no theorem below depends on its values.
Rust panics (unwrap, out-of-bounds indexing) are modelled by an outer
Option layer: a result of none models a panic, some r models a normal
return of r. -/

/-- Modelled from the dependency glam: a 2-component f32 vector. -/
structure Vec2 where
  x : ℚ
  y : ℚ
deriving DecidableEq

/-- Modelled from the dependency glam: a 3-component f32 vector. -/
structure Vec3 where
  x : ℚ
  y : ℚ
  z : ℚ
deriving DecidableEq

/-- Modelled from the dependency glam: a 4-component f32 vector. -/
structure Vec4 where
  x : ℚ
  y : ℚ
  z : ℚ
  w : ℚ
deriving DecidableEq

/-- Modelled from the dependency glam: a quaternion. -/
structure Quat where
  x : ℚ
  y : ℚ
  z : ℚ
  w : ℚ
deriving DecidableEq

def Vec3.zero : Vec3 := ⟨0, 0, 0⟩

def Vec3.add (a b : Vec3) : Vec3 := ⟨a.x + b.x, a.y + b.y, a.z + b.z⟩

def Vec3.smul (s : ℚ) (v : Vec3) : Vec3 := ⟨s * v.x, s * v.y, s * v.z⟩

def Vec3.dot (a b : Vec3) : ℚ := a.x * b.x + a.y * b.y + a.z * b.z

def Vec4.add (a b : Vec4) : Vec4 := ⟨a.x + b.x, a.y + b.y, a.z + b.z, a.w + b.w⟩

def Vec4.sub (a b : Vec4) : Vec4 := ⟨a.x - b.x, a.y - b.y, a.z - b.z, a.w - b.w⟩

def Vec4.smul (s : ℚ) (v : Vec4) : Vec4 := ⟨s * v.x, s * v.y, s * v.z, s * v.w⟩

/-- Componentwise product, glam's Vec4::mul of two vectors. -/
def Vec4.mulv (a b : Vec4) : Vec4 := ⟨a.x * b.x, a.y * b.y, a.z * b.z, a.w * b.w⟩

def Vec4.xyz (v : Vec4) : Vec3 := ⟨v.x, v.y, v.z⟩

/-- Modelled from glam Vec3::normalize_or_zero: multiply by the reciprocal
length when that reciprocal is finite and positive, otherwise return zero.
sq stands for the f32 square root applied to the squared length. -/
def Vec3.normalize_or_zero (sq : ℚ → ℚ) (v : Vec3) : Vec3 :=
  let len := sq (v.dot v)
  if 0 < len then Vec3.smul (1 / len) v else Vec3.zero

/-- Modelled from the dependency glam: a 3x3 column-major matrix. -/
structure Mat3 where
  x_axis : Vec3
  y_axis : Vec3
  z_axis : Vec3
deriving DecidableEq

/-- Modelled from glam Mat3::mul_vec3. -/
def Mat3.mul_vec3 (m : Mat3) (v : Vec3) : Vec3 :=
  (Vec3.smul v.z m.z_axis).add ((Vec3.smul v.y m.y_axis).add (Vec3.smul v.x m.x_axis))

/-- Modelled from the dependency glam: a 4x4 column-major matrix. -/
structure Mat4 where
  x_axis : Vec4
  y_axis : Vec4
  z_axis : Vec4
  w_axis : Vec4
deriving DecidableEq

def Mat4.identity : Mat4 :=
  ⟨⟨1, 0, 0, 0⟩, ⟨0, 1, 0, 0⟩, ⟨0, 0, 1, 0⟩, ⟨0, 0, 0, 1⟩⟩

def Mat4.add (a b : Mat4) : Mat4 :=
  ⟨a.x_axis.add b.x_axis, a.y_axis.add b.y_axis, a.z_axis.add b.z_axis, a.w_axis.add b.w_axis⟩

def Mat4.smul (s : ℚ) (m : Mat4) : Mat4 :=
  ⟨Vec4.smul s m.x_axis, Vec4.smul s m.y_axis, Vec4.smul s m.z_axis, Vec4.smul s m.w_axis⟩

/-- Modelled from glam Mat4::mul_vec4. -/
def Mat4.mul_vec4 (m : Mat4) (v : Vec4) : Vec4 :=
  (Vec4.smul v.w m.w_axis).add
    ((Vec4.smul v.z m.z_axis).add ((Vec4.smul v.y m.y_axis).add (Vec4.smul v.x m.x_axis)))

/-- Modelled from glam Mat4::mul_mat4 (columnwise product); it also models
the product of a bevy GlobalTransform's affine with a Mat4, which glam
evaluates as a 4x4 product. -/
def Mat4.mul (a b : Mat4) : Mat4 :=
  ⟨a.mul_vec4 b.x_axis, a.mul_vec4 b.y_axis, a.mul_vec4 b.z_axis, a.mul_vec4 b.w_axis⟩

/-- Modelled from glam Mat4::transpose. -/
def Mat4.transpose (m : Mat4) : Mat4 :=
  ⟨⟨m.x_axis.x, m.y_axis.x, m.z_axis.x, m.w_axis.x⟩,
   ⟨m.x_axis.y, m.y_axis.y, m.z_axis.y, m.w_axis.y⟩,
   ⟨m.x_axis.z, m.y_axis.z, m.z_axis.z, m.w_axis.z⟩,
   ⟨m.x_axis.w, m.y_axis.w, m.z_axis.w, m.w_axis.w⟩⟩

/-- Modelled from glam Mat4::transform_point3: multiply by the matrix with
an implicit homogeneous coordinate of 1 and keep the xyz part. -/
def Mat4.transform_point3 (m : Mat4) (p : Vec3) : Vec3 :=
  (m.w_axis.add
    ((Vec4.smul p.z m.z_axis).add
      ((Vec4.smul p.y m.y_axis).add (Vec4.smul p.x m.x_axis)))).xyz

/-- Modelled from glam Mat4::inverse (cofactor expansion); exact rational
division stands in for f32 arithmetic, and a zero determinant yields the
zero matrix where glam would produce non-finite floats. -/
def Mat4.inverse (m : Mat4) : Mat4 :=
  let coef00 := m.z_axis.z * m.w_axis.w - m.w_axis.z * m.z_axis.w
  let coef02 := m.y_axis.z * m.w_axis.w - m.w_axis.z * m.y_axis.w
  let coef03 := m.y_axis.z * m.z_axis.w - m.z_axis.z * m.y_axis.w
  let coef04 := m.z_axis.y * m.w_axis.w - m.w_axis.y * m.z_axis.w
  let coef06 := m.y_axis.y * m.w_axis.w - m.w_axis.y * m.y_axis.w
  let coef07 := m.y_axis.y * m.z_axis.w - m.z_axis.y * m.y_axis.w
  let coef08 := m.z_axis.y * m.w_axis.z - m.w_axis.y * m.z_axis.z
  let coef10 := m.y_axis.y * m.w_axis.z - m.w_axis.y * m.y_axis.z
  let coef11 := m.y_axis.y * m.z_axis.z - m.z_axis.y * m.y_axis.z
  let coef12 := m.z_axis.x * m.w_axis.w - m.w_axis.x * m.z_axis.w
  let coef14 := m.y_axis.x * m.w_axis.w - m.w_axis.x * m.y_axis.w
  let coef15 := m.y_axis.x * m.z_axis.w - m.z_axis.x * m.y_axis.w
  let coef16 := m.z_axis.x * m.w_axis.z - m.w_axis.x * m.z_axis.z
  let coef18 := m.y_axis.x * m.w_axis.z - m.w_axis.x * m.y_axis.z
  let coef19 := m.y_axis.x * m.z_axis.z - m.z_axis.x * m.y_axis.z
  let coef20 := m.z_axis.x * m.w_axis.y - m.w_axis.x * m.z_axis.y
  let coef22 := m.y_axis.x * m.w_axis.y - m.w_axis.x * m.y_axis.y
  let coef23 := m.y_axis.x * m.z_axis.y - m.z_axis.x * m.y_axis.y
  let fac0 : Vec4 := ⟨coef00, coef00, coef02, coef03⟩
  let fac1 : Vec4 := ⟨coef04, coef04, coef06, coef07⟩
  let fac2 : Vec4 := ⟨coef08, coef08, coef10, coef11⟩
  let fac3 : Vec4 := ⟨coef12, coef12, coef14, coef15⟩
  let fac4 : Vec4 := ⟨coef16, coef16, coef18, coef19⟩
  let fac5 : Vec4 := ⟨coef20, coef20, coef22, coef23⟩
  let vec0 : Vec4 := ⟨m.y_axis.x, m.x_axis.x, m.x_axis.x, m.x_axis.x⟩
  let vec1 : Vec4 := ⟨m.y_axis.y, m.x_axis.y, m.x_axis.y, m.x_axis.y⟩
  let vec2 : Vec4 := ⟨m.y_axis.z, m.x_axis.z, m.x_axis.z, m.x_axis.z⟩
  let vec3 : Vec4 := ⟨m.y_axis.w, m.x_axis.w, m.x_axis.w, m.x_axis.w⟩
  let inv0 := ((vec1.mulv fac0).sub (vec2.mulv fac1)).add (vec3.mulv fac2)
  let inv1 := ((vec0.mulv fac0).sub (vec2.mulv fac3)).add (vec3.mulv fac4)
  let inv2 := ((vec0.mulv fac1).sub (vec1.mulv fac3)).add (vec3.mulv fac5)
  let inv3 := ((vec0.mulv fac2).sub (vec1.mulv fac4)).add (vec2.mulv fac5)
  let sign_a : Vec4 := ⟨1, -1, 1, -1⟩
  let sign_b : Vec4 := ⟨-1, 1, -1, 1⟩
  let inv : Mat4 := ⟨inv0.mulv sign_a, inv1.mulv sign_b, inv2.mulv sign_a, inv3.mulv sign_b⟩
  let row0 : Vec4 := ⟨inv.x_axis.x, inv.y_axis.x, inv.z_axis.x, inv.w_axis.x⟩
  let dot0 := m.x_axis.mulv row0
  let det := dot0.x + dot0.y + dot0.z + dot0.w
  Mat4.smul (1 / det) inv

/-- Modelled from glam Mat4::from_scale_rotation_translation (via
Mat4::quat_to_axes). -/
def Mat4.from_scale_rotation_translation (scale : Vec3) (rotation : Quat) (translation : Vec3) :
    Mat4 :=
  let x2 := rotation.x + rotation.x
  let y2 := rotation.y + rotation.y
  let z2 := rotation.z + rotation.z
  let xx := rotation.x * x2
  let xy := rotation.x * y2
  let xz := rotation.x * z2
  let yy := rotation.y * y2
  let yz := rotation.y * z2
  let zz := rotation.z * z2
  let wx := rotation.w * x2
  let wy := rotation.w * y2
  let wz := rotation.w * z2
  let x_axis : Vec4 := ⟨1 - (yy + zz), xy + wz, xz - wy, 0⟩
  let y_axis : Vec4 := ⟨xy - wz, 1 - (xx + zz), yz + wx, 0⟩
  let z_axis : Vec4 := ⟨xz + wy, yz - wx, 1 - (xx + yy), 0⟩
  ⟨Vec4.smul scale.x x_axis, Vec4.smul scale.y y_axis, Vec4.smul scale.z z_axis,
   ⟨translation.x, translation.y, translation.z, 1⟩⟩

/-- Modelled from bevy Transform: translation, rotation and non-uniform
scale. -/
structure Transform where
  translation : Vec3
  rotation : Quat
  scale : Vec3
deriving DecidableEq

/-- Modelled from bevy Transform::compute_matrix. -/
def Transform.compute_matrix (t : Transform) : Mat4 :=
  Mat4.from_scale_rotation_translation t.scale t.rotation t.translation

/-- Builds the Mat3 literal that src/lib.rs constructs twice from an
inverse-transpose Mat4, taking the xyz part of each of the first three
columns. -/
def mat3_from_cols_xyz (m : Mat4) : Mat3 :=
  ⟨m.x_axis.xyz, m.y_axis.xyz, m.z_axis.xyz⟩

/-- Modelled from bevy VertexAttributeValues: one vertex-attribute channel
together with its element encoding. f32 entries are rationals, signed
integer entries are integers, unsigned entries are naturals. -/
inductive VertexAttributeValues where
  | Float32 (v : List ℚ)
  | Sint32 (v : List ℤ)
  | Uint32 (v : List ℕ)
  | Float32x2 (v : List (ℚ × ℚ))
  | Sint32x2 (v : List (ℤ × ℤ))
  | Uint32x2 (v : List (ℕ × ℕ))
  | Float32x3 (v : List (ℚ × ℚ × ℚ))
  | Sint32x3 (v : List (ℤ × ℤ × ℤ))
  | Uint32x3 (v : List (ℕ × ℕ × ℕ))
  | Float32x4 (v : List (ℚ × ℚ × ℚ × ℚ))
  | Sint32x4 (v : List (ℤ × ℤ × ℤ × ℤ))
  | Uint32x4 (v : List (ℕ × ℕ × ℕ × ℕ))
  | Sint16x2 (v : List (ℤ × ℤ))
  | Snorm16x2 (v : List (ℤ × ℤ))
  | Uint16x2 (v : List (ℕ × ℕ))
  | Unorm16x2 (v : List (ℕ × ℕ))
  | Sint16x4 (v : List (ℤ × ℤ × ℤ × ℤ))
  | Snorm16x4 (v : List (ℤ × ℤ × ℤ × ℤ))
  | Uint16x4 (v : List (ℕ × ℕ × ℕ × ℕ))
  | Unorm16x4 (v : List (ℕ × ℕ × ℕ × ℕ))
  | Sint8x2 (v : List (ℤ × ℤ))
  | Snorm8x2 (v : List (ℤ × ℤ))
  | Uint8x2 (v : List (ℕ × ℕ))
  | Unorm8x2 (v : List (ℕ × ℕ))
  | Sint8x4 (v : List (ℤ × ℤ × ℤ × ℤ))
  | Snorm8x4 (v : List (ℤ × ℤ × ℤ × ℤ))
  | Uint8x4 (v : List (ℕ × ℕ × ℕ × ℕ))
  | Unorm8x4 (v : List (ℕ × ℕ × ℕ × ℕ))
deriving DecidableEq

/-- Number of vertices stored in a channel, bevy's
VertexAttributeValues::len. -/
def VertexAttributeValues.length : VertexAttributeValues → ℕ
  | .Float32 v => v.length
  | .Sint32 v => v.length
  | .Uint32 v => v.length
  | .Float32x2 v => v.length
  | .Sint32x2 v => v.length
  | .Uint32x2 v => v.length
  | .Float32x3 v => v.length
  | .Sint32x3 v => v.length
  | .Uint32x3 v => v.length
  | .Float32x4 v => v.length
  | .Sint32x4 v => v.length
  | .Uint32x4 v => v.length
  | .Sint16x2 v => v.length
  | .Snorm16x2 v => v.length
  | .Uint16x2 v => v.length
  | .Unorm16x2 v => v.length
  | .Sint16x4 v => v.length
  | .Snorm16x4 v => v.length
  | .Uint16x4 v => v.length
  | .Unorm16x4 v => v.length
  | .Sint8x2 v => v.length
  | .Snorm8x2 v => v.length
  | .Uint8x2 v => v.length
  | .Unorm8x2 v => v.length
  | .Sint8x4 v => v.length
  | .Snorm8x4 v => v.length
  | .Uint8x4 v => v.length
  | .Unorm8x4 v => v.length

/-- Distinguishes the element encoding of a channel, one tag per
VertexAttributeValues constructor. -/
def VertexAttributeValues.encoding : VertexAttributeValues → ℕ
  | .Float32 _ => 0
  | .Sint32 _ => 1
  | .Uint32 _ => 2
  | .Float32x2 _ => 3
  | .Sint32x2 _ => 4
  | .Uint32x2 _ => 5
  | .Float32x3 _ => 6
  | .Sint32x3 _ => 7
  | .Uint32x3 _ => 8
  | .Float32x4 _ => 9
  | .Sint32x4 _ => 10
  | .Uint32x4 _ => 11
  | .Sint16x2 _ => 12
  | .Snorm16x2 _ => 13
  | .Uint16x2 _ => 14
  | .Unorm16x2 _ => 15
  | .Sint16x4 _ => 16
  | .Snorm16x4 _ => 17
  | .Uint16x4 _ => 18
  | .Unorm16x4 _ => 19
  | .Sint8x2 _ => 20
  | .Snorm8x2 _ => 21
  | .Uint8x2 _ => 22
  | .Unorm8x2 _ => 23
  | .Sint8x4 _ => 24
  | .Snorm8x4 _ => 25
  | .Uint8x4 _ => 26
  | .Unorm8x4 _ => 27

/-- The per-channel body of mesh_append's attributes_mut loop (src/lib.rs
lines 235-378): when the source mesh has the same channel under the same
encoding its values are appended, under any other encoding (or when the
lookup misses, which the earlier check rules out) the destination channel
is left as it is. -/
def extendValues (vals : VertexAttributeValues) (src : Option VertexAttributeValues) :
    VertexAttributeValues :=
  match vals with
  | .Float32 v => match src with
    | some (.Float32 s) => .Float32 (v ++ s)
    | _ => .Float32 v
  | .Sint32 v => match src with
    | some (.Sint32 s) => .Sint32 (v ++ s)
    | _ => .Sint32 v
  | .Uint32 v => match src with
    | some (.Uint32 s) => .Uint32 (v ++ s)
    | _ => .Uint32 v
  | .Float32x2 v => match src with
    | some (.Float32x2 s) => .Float32x2 (v ++ s)
    | _ => .Float32x2 v
  | .Sint32x2 v => match src with
    | some (.Sint32x2 s) => .Sint32x2 (v ++ s)
    | _ => .Sint32x2 v
  | .Uint32x2 v => match src with
    | some (.Uint32x2 s) => .Uint32x2 (v ++ s)
    | _ => .Uint32x2 v
  | .Float32x3 v => match src with
    | some (.Float32x3 s) => .Float32x3 (v ++ s)
    | _ => .Float32x3 v
  | .Sint32x3 v => match src with
    | some (.Sint32x3 s) => .Sint32x3 (v ++ s)
    | _ => .Sint32x3 v
  | .Uint32x3 v => match src with
    | some (.Uint32x3 s) => .Uint32x3 (v ++ s)
    | _ => .Uint32x3 v
  | .Float32x4 v => match src with
    | some (.Float32x4 s) => .Float32x4 (v ++ s)
    | _ => .Float32x4 v
  | .Sint32x4 v => match src with
    | some (.Sint32x4 s) => .Sint32x4 (v ++ s)
    | _ => .Sint32x4 v
  | .Uint32x4 v => match src with
    | some (.Uint32x4 s) => .Uint32x4 (v ++ s)
    | _ => .Uint32x4 v
  | .Sint16x2 v => match src with
    | some (.Sint16x2 s) => .Sint16x2 (v ++ s)
    | _ => .Sint16x2 v
  | .Snorm16x2 v => match src with
    | some (.Snorm16x2 s) => .Snorm16x2 (v ++ s)
    | _ => .Snorm16x2 v
  | .Uint16x2 v => match src with
    | some (.Uint16x2 s) => .Uint16x2 (v ++ s)
    | _ => .Uint16x2 v
  | .Unorm16x2 v => match src with
    | some (.Unorm16x2 s) => .Unorm16x2 (v ++ s)
    | _ => .Unorm16x2 v
  | .Sint16x4 v => match src with
    | some (.Sint16x4 s) => .Sint16x4 (v ++ s)
    | _ => .Sint16x4 v
  | .Snorm16x4 v => match src with
    | some (.Snorm16x4 s) => .Snorm16x4 (v ++ s)
    | _ => .Snorm16x4 v
  | .Uint16x4 v => match src with
    | some (.Uint16x4 s) => .Uint16x4 (v ++ s)
    | _ => .Uint16x4 v
  | .Unorm16x4 v => match src with
    | some (.Unorm16x4 s) => .Unorm16x4 (v ++ s)
    | _ => .Unorm16x4 v
  | .Sint8x2 v => match src with
    | some (.Sint8x2 s) => .Sint8x2 (v ++ s)
    | _ => .Sint8x2 v
  | .Snorm8x2 v => match src with
    | some (.Snorm8x2 s) => .Snorm8x2 (v ++ s)
    | _ => .Snorm8x2 v
  | .Uint8x2 v => match src with
    | some (.Uint8x2 s) => .Uint8x2 (v ++ s)
    | _ => .Uint8x2 v
  | .Unorm8x2 v => match src with
    | some (.Unorm8x2 s) => .Unorm8x2 (v ++ s)
    | _ => .Unorm8x2 v
  | .Sint8x4 v => match src with
    | some (.Sint8x4 s) => .Sint8x4 (v ++ s)
    | _ => .Sint8x4 v
  | .Snorm8x4 v => match src with
    | some (.Snorm8x4 s) => .Snorm8x4 (v ++ s)
    | _ => .Snorm8x4 v
  | .Uint8x4 v => match src with
    | some (.Uint8x4 s) => .Uint8x4 (v ++ s)
    | _ => .Uint8x4 v
  | .Unorm8x4 v => match src with
    | some (.Unorm8x4 s) => .Unorm8x4 (v ++ s)
    | _ => .Unorm8x4 v

/-- Modelled from bevy Indices: a 16-bit or 32-bit index buffer. The stored
naturals are the buffer values; Indices::iter widens them to usize. -/
inductive Indices where
  | U16 (v : List ℕ)
  | U32 (v : List ℕ)
deriving DecidableEq

/-- The values an Indices buffer yields through Indices::iter. -/
def Indices.vals : Indices → List ℕ
  | .U16 v => v
  | .U32 v => v

/-- True for a 16-bit buffer; records which width a buffer uses. -/
def Indices.isU16 : Indices → Bool
  | .U16 _ => true
  | .U32 _ => false

/-- Number of distinct values representable at this buffer's index width. -/
def Indices.width : Indices → ℕ
  | .U16 _ => 65536
  | .U32 _ => 4294967296

/-- Modelled from bevy PrimitiveTopology. -/
inductive PrimitiveTopology where
  | PointList
  | LineList
  | LineStrip
  | TriangleList
  | TriangleStrip
deriving DecidableEq

/-- Modelled from bevy Mesh: named attribute channels held in a map ordered
by the numeric MeshVertexAttributeId, plus an optional index buffer. The
attributes list is kept sorted by id through Mesh.insert_attribute,
mirroring bevy's BTreeMap iteration order. -/
structure Mesh where
  primitive_topology : PrimitiveTopology
  attributes : List (ℕ × VertexAttributeValues)
  indices : Option Indices
deriving DecidableEq

/-- The id of Mesh::ATTRIBUTE_POSITION. -/
def ATTRIBUTE_POSITION : ℕ := 0

/-- The id of Mesh::ATTRIBUTE_NORMAL. -/
def ATTRIBUTE_NORMAL : ℕ := 1

/-- The id of Mesh::ATTRIBUTE_UV_0. -/
def ATTRIBUTE_UV_0 : ℕ := 2

/-- The id of Mesh::ATTRIBUTE_JOINT_WEIGHT. -/
def ATTRIBUTE_JOINT_WEIGHT : ℕ := 5

/-- The id of Mesh::ATTRIBUTE_JOINT_INDEX. -/
def ATTRIBUTE_JOINT_INDEX : ℕ := 6

/-- Modelled from bevy Mesh::new. -/
def Mesh.new (t : PrimitiveTopology) : Mesh := ⟨t, [], none⟩

/-- Modelled from bevy Mesh::attribute: look the channel up by id. -/
def Mesh.attribute (m : Mesh) (id : ℕ) : Option VertexAttributeValues :=
  List.lookup id m.attributes

/-- Sorted-insert into the attribute map, replacing an existing entry with
the same id; models bevy's BTreeMap::insert. -/
def insertAttrSorted : List (ℕ × VertexAttributeValues) → ℕ → VertexAttributeValues →
    List (ℕ × VertexAttributeValues)
  | [], id, v => [(id, v)]
  | (a, w) :: t, id, v =>
    if id < a then (id, v) :: (a, w) :: t
    else if id = a then (id, v) :: t
    else (a, w) :: insertAttrSorted t id v

/-- Modelled from bevy Mesh::insert_attribute. -/
def Mesh.insert_attribute (m : Mesh) (id : ℕ) (v : VertexAttributeValues) : Mesh :=
  { m with attributes := insertAttrSorted m.attributes id v }

/-- Modelled from bevy Mesh::set_indices. -/
def Mesh.set_indices (m : Mesh) (i : Option Indices) : Mesh :=
  { m with indices := i }

/-- Modelled from bevy Mesh::count_vertices: the smallest channel length
(bevy warns on a mismatch and keeps the minimum), 0 for a mesh with no
attributes. -/
def Mesh.count_vertices (m : Mesh) : ℕ :=
  ((m.attributes.map fun p => p.2.length).foldl
    (fun acc n =>
      match acc with
      | none => some n
      | some c => some (min c n))
    none).getD 0

/-- The transmute of src/lib.rs between a [f32x3] element and a Vec3. -/
def f32x3_vec3 (p : ℚ × ℚ × ℚ) : Vec3 := ⟨p.1, p.2.1, p.2.2⟩

/-- Inverse direction of the [f32x3] and Vec3 identification. -/
def vec3_f32x3 (v : Vec3) : ℚ × ℚ × ℚ := (v.x, v.y, v.z)

/-- The transmute of src/lib.rs between a [f32x2] element and a Vec2. -/
def f32x2_vec2 (p : ℚ × ℚ) : Vec2 := ⟨p.1, p.2⟩

/-- The transmute of src/lib.rs between a [f32x4] element and a Vec4. -/
def f32x4_vec4 (p : ℚ × ℚ × ℚ × ℚ) : Vec4 := ⟨p.1, p.2.1, p.2.2.1, p.2.2.2⟩

/-- mesh_len from src/lib.rs. -/
def mesh_len (mesh : Mesh) : ℕ :=
  match mesh.attribute ATTRIBUTE_POSITION with
  | some (.Float32x3 positions) => positions.length
  | _ => 0

/-- mesh_positions from src/lib.rs: the position channel viewed as Vec3
values, empty when the channel is missing or differently encoded. -/
def mesh_positions (mesh : Mesh) : List Vec3 :=
  match mesh.attribute ATTRIBUTE_POSITION with
  | some (.Float32x3 v) => v.map f32x3_vec3
  | _ => []

/-- mesh_normals from src/lib.rs. -/
def mesh_normals (mesh : Mesh) : List Vec3 :=
  match mesh.attribute ATTRIBUTE_NORMAL with
  | some (.Float32x3 v) => v.map f32x3_vec3
  | _ => []

/-- mesh_uvs from src/lib.rs. -/
def mesh_uvs (mesh : Mesh) : List Vec2 :=
  match mesh.attribute ATTRIBUTE_UV_0 with
  | some (.Float32x2 v) => v.map f32x2_vec2
  | _ => []

/-- mesh_joint_indices from src/lib.rs: the raw [u16x4] entries. -/
def mesh_joint_indices (mesh : Mesh) : List (ℕ × ℕ × ℕ × ℕ) :=
  match mesh.attribute ATTRIBUTE_JOINT_INDEX with
  | some (.Uint16x4 indices) => indices
  | _ => []

/-- mesh_joint_weights from src/lib.rs. -/
def mesh_joint_weights (mesh : Mesh) : List Vec4 :=
  match mesh.attribute ATTRIBUTE_JOINT_WEIGHT with
  | some (.Float32x4 v) => v.map f32x4_vec4
  | _ => []

/-- Models a write-back through mesh_positions_mut or mesh_normals_mut on
the attribute list: the Float32x3 channel with the given id is mapped
elementwise; a missing or differently encoded channel yields an empty
iterator in the source, so nothing changes. -/
def mapAttrsVec3 (id : ℕ) (f : Vec3 → Vec3) (l : List (ℕ × VertexAttributeValues)) :
    List (ℕ × VertexAttributeValues) :=
  l.map fun p =>
    if p.1 = id then
      match p.2 with
      | .Float32x3 v => (p.1, .Float32x3 (v.map fun q => vec3_f32x3 (f (f32x3_vec3 q))))
      | w => (p.1, w)
    else p

/-- Mesh-level wrapper of mapAttrsVec3. -/
def mapVec3Channel (id : ℕ) (f : Vec3 → Vec3) (m : Mesh) : Mesh :=
  { m with attributes := mapAttrsVec3 id f m.attributes }

/-- Models overwriting the Float32x3 channel with the given id with a list
of Vec3 values that the skinning loop produced; a missing or differently
encoded channel gave that loop an empty iterator, so it stays unchanged. -/
def setAttrsVec3 (id : ℕ) (ps : List Vec3) (l : List (ℕ × VertexAttributeValues)) :
    List (ℕ × VertexAttributeValues) :=
  l.map fun p =>
    if p.1 = id then
      match p.2 with
      | .Float32x3 _ => (p.1, .Float32x3 (ps.map vec3_f32x3))
      | w => (p.1, w)
    else p

/-- Mesh-level wrapper of setAttrsVec3. -/
def setVec3Channel (id : ℕ) (ps : List Vec3) (m : Mesh) : Mesh :=
  { m with attributes := setAttrsVec3 id ps m.attributes }

/-- mesh_with_transform from src/lib.rs: clone the mesh, transform every
position by the transform's matrix, transform every normal by the
inverse-transpose 3x3 part and renormalize (or zero). -/
def mesh_with_transform (sq : ℚ → ℚ) (mesh : Mesh) (transform : Transform) : Option Mesh :=
  let mat := transform.compute_matrix
  let m1 := mapVec3Channel ATTRIBUTE_POSITION (fun p => mat.transform_point3 p) mesh
  let inverse_transpose_model := mat3_from_cols_xyz mat.inverse.transpose
  let m2 := mapVec3Channel ATTRIBUTE_NORMAL
    (fun n => Vec3.normalize_or_zero sq (inverse_transpose_model.mul_vec3 n)) m1
  some m2

/-- Modelled from bevy SkinnedMesh: a handle (here a bare id) to the
inverse-bindpose asset plus the joint entity list (entities are bare
ids). -/
structure SkinnedMesh where
  inverse_bindposes : ℕ
  joints : List ℕ
deriving DecidableEq

/-- skin_model from src/lib.rs. The four joint lookups index the slice and
panic (modelled by none) when out of bounds. -/
def skin_model (joint_matrices : List Mat4) (indexes : ℕ × ℕ × ℕ × ℕ) (weights : Vec4) :
    Option Mat4 :=
  match joint_matrices[indexes.1]?, joint_matrices[indexes.2.1]?,
      joint_matrices[indexes.2.2.1]?, joint_matrices[indexes.2.2.2]? with
  | some m0, some m1, some m2, some m3 =>
    some ((((Mat4.smul weights.x m0).add (Mat4.smul weights.y m1)).add
      (Mat4.smul weights.z m2)).add (Mat4.smul weights.w m3))
  | _, _, _, _ => none

/-- The loop of skinned_mesh_joints: walk the zipped inverse bindposes and
joint entities, pushing world * inverse_bindpose and aborting with none on
the first unresolvable joint. joint_world models the
Query of GlobalTransform (a GlobalTransform is represented by its affine
matrix). -/
def jointsLoop (joint_world : ℕ → Option Mat4) : List (Mat4 × ℕ) → Option (List Mat4)
  | [] => some []
  | (inverse_bindpose, joint) :: rest =>
    match joint_world joint with
    | some g => (jointsLoop joint_world rest).map fun buffer => g.mul inverse_bindpose :: buffer
    | none => none

/-- skinned_mesh_joints from src/lib.rs. inverse_bindposes models the
Assets lookup of SkinnedMeshInverseBindposes by handle id. -/
def skinned_mesh_joints (skin : SkinnedMesh) (inverse_bindposes : ℕ → Option (List Mat4))
    (joints : ℕ → Option Mat4) : Option (List Mat4) :=
  match inverse_bindposes skin.inverse_bindposes with
  | none => none
  | some ibps => jointsLoop joints (ibps.zip skin.joints)

/-- The position loop of mesh_with_skinned_transform: zip positions with
joint indices and weights (stopping at the shortest channel, leaving later
positions untouched), transform each position by its blended skin model
and collect the models. none models a panic inside skin_model. -/
def skinLoop (joints : List Mat4) :
    List Vec3 → List (ℕ × ℕ × ℕ × ℕ) → List Vec4 → Option (List Vec3 × List Mat4)
  | [], _, _ => some ([], [])
  | ps, [], _ => some (ps, [])
  | ps, _, [] => some (ps, [])
  | p :: ps, i :: is, w :: ws =>
    match skin_model joints i w with
    | none => none
    | some model =>
      match skinLoop joints ps is ws with
      | none => none
      | some (rest, models) => some (model.transform_point3 p :: rest, model :: models)

/-- The normal loop of mesh_with_skinned_transform: zip normals with the
collected per-vertex models, transforming each zipped normal by the
model's inverse-transpose 3x3 part; normals beyond the model list stay
untouched. -/
def normalsZip (sq : ℚ → ℚ) : List Vec3 → List Mat4 → List Vec3
  | ns, [] => ns
  | [], _ => []
  | n :: ns, model :: models =>
    let inverse_transpose_model := mat3_from_cols_xyz model.inverse.transpose
    Vec3.normalize_or_zero sq (inverse_transpose_model.mul_vec3 n) ::
      normalsZip sq ns models

/-- mesh_with_skinned_transform from src/lib.rs. When the skeleton resolves,
positions and normals of the clone are skinned; when skinned_mesh_joints
returns none the clone is returned untouched (still a some). The outer
Option models a panic inside skin_model. -/
def mesh_with_skinned_transform (sq : ℚ → ℚ) (mesh : Mesh) (skinned_mesh : SkinnedMesh)
    (joint_query : ℕ → Option Mat4) (inverse_bindposes : ℕ → Option (List Mat4)) :
    Option (Option Mesh) :=
  match skinned_mesh_joints skinned_mesh inverse_bindposes joint_query with
  | some joints =>
    match skinLoop joints (mesh_positions mesh) (mesh_joint_indices mesh)
        (mesh_joint_weights mesh) with
    | none => none
    | some (new_positions, models) =>
      let m1 := setVec3Channel ATTRIBUTE_POSITION new_positions mesh
      let new_normals := normalsZip sq (mesh_normals m1) models
      let m2 := setVec3Channel ATTRIBUTE_NORMAL new_normals m1
      some (some m2)
  | none => some (some mesh)

/-- MeshAppendError from src/lib.rs. -/
inductive MeshAppendError where
  | AttributeNotFound (id : ℕ)
deriving DecidableEq

/-- The Result of mesh_append, ok or a MeshAppendError. -/
inductive AppendOutcome where
  | ok
  | error (e : MeshAppendError)
deriving DecidableEq

/-- mesh_append from src/lib.rs, returning the destination mesh after the
call together with the Result; none models a panic of one of the two
indices unwraps. The attribute check runs first and returns the
destination untouched on failure; then src indices are rebased by the
destination vertex count with u16 or u32 wrapping casts and appended at
the destination's width; finally each destination channel is extended by
the same-encoded source channel. -/
def mesh_append (dest_mesh : Mesh) (src_mesh : Mesh) : Option (Mesh × AppendOutcome) :=
  let dest_mesh_count := dest_mesh.count_vertices
  match dest_mesh.attributes.find? fun p => (src_mesh.attribute p.1).isNone with
  | some p => some (dest_mesh, .error (.AttributeNotFound p.1))
  | none =>
    match src_mesh.indices with
    | none => none
    | some src_indices =>
      match dest_mesh.indices with
      | none => none
      | some dest_indices =>
        let new_indices :=
          match dest_indices with
          | .U16 dv =>
            Indices.U16 (dv ++ src_indices.vals.map fun sv =>
              (sv % 65536 + dest_mesh_count % 65536) % 65536)
          | .U32 dv =>
            Indices.U32 (dv ++ src_indices.vals.map fun sv =>
              (sv % 4294967296 + dest_mesh_count % 4294967296) % 4294967296)
        let new_attributes := dest_mesh.attributes.map fun p =>
          (p.1, extendValues p.2 (src_mesh.attribute p.1))
        some ({ dest_mesh with indices := some new_indices, attributes := new_attributes },
          .ok)

/-- mesh_empty_default from src/lib.rs: a TriangleList mesh with empty
position, normal and uv channels and an empty 32-bit index buffer. -/
def mesh_empty_default : Mesh :=
  let m := Mesh.new .TriangleList
  let m := m.insert_attribute ATTRIBUTE_POSITION (.Float32x3 [])
  let m := m.insert_attribute ATTRIBUTE_NORMAL (.Float32x3 [])
  let m := m.insert_attribute ATTRIBUTE_UV_0 (.Float32x2 [])
  m.set_indices (some (.U32 []))

theorem lookup_cons_nat {β : Type} (a k : ℕ) (v : β) (t : List (ℕ × β)) :
    List.lookup a ((k, v) :: t) = if a = k then some v else List.lookup a t := by
  by_cases h : a = k
  · subst h; simp [List.lookup]
  · have hbeq : (a == k) = false := by simpa using h
    simp [List.lookup, hbeq, h]

theorem mapAttrsVec3_cons (id k : ℕ) (f : Vec3 → Vec3) (v : VertexAttributeValues)
    (t : List (ℕ × VertexAttributeValues)) :
    mapAttrsVec3 id f ((k, v) :: t) =
      (if k = id then
        match v with
        | .Float32x3 q =>
          (k, VertexAttributeValues.Float32x3 (q.map fun r => vec3_f32x3 (f (f32x3_vec3 r))))
        | w => (k, w)
      else (k, v)) :: mapAttrsVec3 id f t := rfl

theorem setAttrsVec3_cons (id k : ℕ) (ps : List Vec3) (v : VertexAttributeValues)
    (t : List (ℕ × VertexAttributeValues)) :
    setAttrsVec3 id ps ((k, v) :: t) =
      (if k = id then
        match v with
        | .Float32x3 _ => (k, VertexAttributeValues.Float32x3 (ps.map vec3_f32x3))
        | w => (k, w)
      else (k, v)) :: setAttrsVec3 id ps t := rfl

theorem lookup_map_pair (F : ℕ → VertexAttributeValues → VertexAttributeValues)
    (l : List (ℕ × VertexAttributeValues)) (a : ℕ) :
    List.lookup a (l.map fun p => (p.1, F p.1 p.2)) = (List.lookup a l).map (F a) := by
  induction l with
  | nil => rfl
  | cons p t ih =>
    obtain ⟨k, v⟩ := p
    by_cases h : a = k
    · subst h; simp [List.lookup]
    · have hbeq : (a == k) = false := by simpa using h
      simp [List.lookup, hbeq, ih]

theorem extendValues_ne_encoding (v s : VertexAttributeValues)
    (h : v.encoding ≠ s.encoding) : extendValues v (some s) = v := by
  cases v <;> cases s <;> first | rfl | exact absurd rfl h

theorem mapAttrsVec3_lookup (id a : ℕ) (f : Vec3 → Vec3) (l : List (ℕ × VertexAttributeValues)) :
    List.lookup a (mapAttrsVec3 id f l) =
      (List.lookup a l).map (fun v =>
        if a = id then
          match v with
          | .Float32x3 q =>
            VertexAttributeValues.Float32x3 (q.map fun r => vec3_f32x3 (f (f32x3_vec3 r)))
          | w => w
        else v) := by
  induction l with
  | nil => rfl
  | cons p t ih =>
    obtain ⟨k, v⟩ := p
    rw [mapAttrsVec3_cons]
    by_cases hk : k = id
    · subst hk
      by_cases ha : a = k
      · subst ha
        cases v <;> simp [lookup_cons_nat]
      · cases v <;> simp [lookup_cons_nat, ha, ih]
    · by_cases ha : a = k
      · subst ha
        simp [lookup_cons_nat, hk]
      · simp [lookup_cons_nat, hk, ha, ih]

theorem mapAttrsVec3_keys (id : ℕ) (f : Vec3 → Vec3) (l : List (ℕ × VertexAttributeValues)) :
    (mapAttrsVec3 id f l).map Prod.fst = l.map Prod.fst := by
  induction l with
  | nil => rfl
  | cons p t ih =>
    obtain ⟨k, v⟩ := p
    rw [mapAttrsVec3_cons]
    by_cases hk : k = id <;> cases v <;> simp [hk, ih]

theorem length_Float32x3 (q : List (ℚ × ℚ × ℚ)) :
    (VertexAttributeValues.Float32x3 q).length = q.length := rfl

theorem mapAttrsVec3_lengths (id : ℕ) (f : Vec3 → Vec3) (l : List (ℕ × VertexAttributeValues)) :
    (mapAttrsVec3 id f l).map (fun p => p.2.length) = l.map (fun p => p.2.length) := by
  induction l with
  | nil => rfl
  | cons p t ih =>
    obtain ⟨k, v⟩ := p
    rw [mapAttrsVec3_cons]
    by_cases hk : k = id <;> cases v <;> simp [hk, ih, length_Float32x3]

theorem mapAttrsVec3_not_mem (id : ℕ) (f : Vec3 → Vec3) (l : List (ℕ × VertexAttributeValues))
    (h : id ∉ l.map Prod.fst) : mapAttrsVec3 id f l = l := by
  induction l with
  | nil => rfl
  | cons p t ih =>
    obtain ⟨k, v⟩ := p
    simp only [List.map_cons, List.mem_cons, not_or] at h
    have hk : ¬ k = id := fun hh => h.1 hh.symm
    rw [mapAttrsVec3_cons]
    simp [hk, ih h.2]

theorem setAttrsVec3_not_mem (id : ℕ) (ps : List Vec3) (l : List (ℕ × VertexAttributeValues))
    (h : id ∉ l.map Prod.fst) : setAttrsVec3 id ps l = l := by
  induction l with
  | nil => rfl
  | cons p t ih =>
    obtain ⟨k, v⟩ := p
    simp only [List.map_cons, List.mem_cons, not_or] at h
    have hk : ¬ k = id := fun hh => h.1 hh.symm
    rw [setAttrsVec3_cons]
    simp [hk, ih h.2]

theorem setAttrsVec3_lookup_ne (id a : ℕ) (h : a ≠ id) (ps : List Vec3)
    (l : List (ℕ × VertexAttributeValues)) :
    List.lookup a (setAttrsVec3 id ps l) = List.lookup a l := by
  induction l with
  | nil => rfl
  | cons p t ih =>
    obtain ⟨k, v⟩ := p
    rw [setAttrsVec3_cons]
    by_cases hk : k = id
    · subst hk
      have ha : ¬ a = k := h
      cases v <;> simp [lookup_cons_nat, ha, ih]
    · by_cases ha : a = k
      · subst ha
        simp [lookup_cons_nat, hk]
      · simp [lookup_cons_nat, hk, ha, ih]

theorem setAttrsVec3_keys (id : ℕ) (ps : List Vec3) (l : List (ℕ × VertexAttributeValues)) :
    (setAttrsVec3 id ps l).map Prod.fst = l.map Prod.fst := by
  induction l with
  | nil => rfl
  | cons p t ih =>
    obtain ⟨k, v⟩ := p
    rw [setAttrsVec3_cons]
    by_cases hk : k = id <;> cases v <;> simp [hk, ih]

/-- Proof-layer view of the Float32x3 channel with a given id. -/
def vec3Channel (id : ℕ) (l : List (ℕ × VertexAttributeValues)) : List Vec3 :=
  match List.lookup id l with
  | some (.Float32x3 v) => v.map f32x3_vec3
  | _ => []

theorem mesh_positions_eq_vec3Channel (m : Mesh) :
    mesh_positions m = vec3Channel ATTRIBUTE_POSITION m.attributes := rfl

theorem mesh_normals_eq_vec3Channel (m : Mesh) :
    mesh_normals m = vec3Channel ATTRIBUTE_NORMAL m.attributes := rfl

theorem setAttrsVec3_eq_map (id : ℕ) (f : Vec3 → Vec3) (l : List (ℕ × VertexAttributeValues))
    (hnd : (l.map Prod.fst).Nodup) :
    setAttrsVec3 id ((vec3Channel id l).map f) l = mapAttrsVec3 id f l := by
  induction l with
  | nil => rfl
  | cons p t ih =>
    obtain ⟨k, v⟩ := p
    simp only [List.map_cons, List.nodup_cons] at hnd
    rw [setAttrsVec3_cons, mapAttrsVec3_cons]
    by_cases hk : k = id
    · subst hk
      have hset : ∀ qs, setAttrsVec3 k qs t = t := fun qs => setAttrsVec3_not_mem k qs t hnd.1
      have hmap := mapAttrsVec3_not_mem k f t hnd.1
      cases v <;>
        simp [vec3Channel, lookup_cons_nat, hset, hmap, List.map_map, Function.comp]
    · have hv : vec3Channel id ((k, v) :: t) = vec3Channel id t := by
        have hik : ¬ id = k := fun hh => hk hh.symm
        simp [vec3Channel, lookup_cons_nat, hik]
      simp [hk, hv, ih hnd.2]

theorem blend_one (m : Mat4) :
    (((Mat4.smul 1 m).add (Mat4.smul 0 m)).add (Mat4.smul 0 m)).add (Mat4.smul 0 m) = m := by
  obtain ⟨⟨ax, ay, az, aw⟩, ⟨bx, by2, bz, bw⟩, ⟨cx, cy, cz, cw⟩, ⟨dx, dy, dz, dw⟩⟩ := m
  simp [Mat4.smul, Mat4.add, Vec4.smul, Vec4.add]

theorem skin_model_single (mat : Mat4) :
    skin_model [mat] (0, 0, 0, 0) ⟨1, 0, 0, 0⟩ = some mat := by
  simp [skin_model, blend_one]

theorem skinLoop_single (mat : Mat4) (ps : List Vec3) (is : List (ℕ × ℕ × ℕ × ℕ))
    (ws : List Vec4)
    (his : ∀ x ∈ is, x = (0, 0, 0, 0)) (hws : ∀ w ∈ ws, w = (⟨1, 0, 0, 0⟩ : Vec4))
    (hlis : is.length = ps.length) (hlws : ws.length = ps.length) :
    skinLoop [mat] ps is ws =
      some (ps.map (fun p => mat.transform_point3 p), List.replicate ps.length mat) := by
  induction ps generalizing is ws with
  | nil => simp [skinLoop]
  | cons p ps ih =>
    cases is with
    | nil => simp at hlis
    | cons i it =>
      cases ws with
      | nil => simp at hlws
      | cons w wt =>
        have hi : i = (0, 0, 0, 0) := his i (by simp)
        have hw : w = (⟨1, 0, 0, 0⟩ : Vec4) := hws w (by simp)
        subst hi hw
        have ht := ih it wt (fun x hx => his x (by simp [hx]))
          (fun x hx => hws x (by simp [hx])) (by simpa using hlis) (by simpa using hlws)
        simp [skinLoop, skin_model_single, ht, List.replicate, -Prod.mk_zero_zero]

theorem normalsZip_replicate (sq : ℚ → ℚ) (mat : Mat4) (ns : List Vec3) (L : ℕ)
    (h : ns.length ≤ L) :
    normalsZip sq ns (List.replicate L mat) =
      ns.map fun n =>
        Vec3.normalize_or_zero sq ((mat3_from_cols_xyz mat.inverse.transpose).mul_vec3 n) := by
  induction ns generalizing L with
  | nil => cases L <;> rfl
  | cons n ns ih =>
    cases L with
    | zero => simp at h
    | succ L2 =>
      have h2 : ns.length ≤ L2 := by simpa using h
      simp [List.replicate, normalsZip, ih L2 h2]

theorem jointsLoop_none (q : ℕ → Option Mat4) (l : List (Mat4 × ℕ))
    (h : ∃ p ∈ l, q p.2 = none) : jointsLoop q l = none := by
  induction l with
  | nil =>
    obtain ⟨r, hr, _⟩ := h
    exact absurd hr (List.not_mem_nil r)
  | cons p t ih =>
    obtain ⟨ib, e⟩ := p
    obtain ⟨r, hr, hq⟩ := h
    rcases List.mem_cons.1 hr with h1 | h2
    · subst h1
      simp [jointsLoop, hq]
    · cases hqe : q e with
      | none => simp [jointsLoop, hqe]
      | some g => simp [jointsLoop, hqe, ih ⟨r, h2, hq⟩]

theorem skin_model_isSome (js : List Mat4) (i : ℕ × ℕ × ℕ × ℕ) (w : Vec4)
    (h1 : i.1 < js.length) (h2 : i.2.1 < js.length) (h3 : i.2.2.1 < js.length)
    (h4 : i.2.2.2 < js.length) : (skin_model js i w).isSome := by
  have e1 := List.getElem?_eq_getElem h1
  have e2 := List.getElem?_eq_getElem h2
  have e3 := List.getElem?_eq_getElem h3
  have e4 := List.getElem?_eq_getElem h4
  simp [skin_model, e1, e2, e3, e4]

theorem skinLoop_isSome (js : List Mat4) (ps : List Vec3) (is : List (ℕ × ℕ × ℕ × ℕ))
    (ws : List Vec4)
    (h : ∀ x ∈ is,
      x.1 < js.length ∧ x.2.1 < js.length ∧ x.2.2.1 < js.length ∧ x.2.2.2 < js.length) :
    (skinLoop js ps is ws).isSome := by
  induction ps generalizing is ws with
  | nil => simp [skinLoop]
  | cons p ps ih =>
    cases is with
    | nil => simp [skinLoop]
    | cons i it =>
      cases ws with
      | nil => simp [skinLoop]
      | cons w wt =>
        obtain ⟨hh1, hh2, hh3, hh4⟩ := h i (by simp)
        have hm := skin_model_isSome js i w hh1 hh2 hh3 hh4
        rw [Option.isSome_iff_exists] at hm
        obtain ⟨model, hm⟩ := hm
        have ht := ih it wt (fun x hx => h x (by simp [hx]))
        rw [Option.isSome_iff_exists] at ht
        obtain ⟨pr, ht⟩ := ht
        obtain ⟨rest, models⟩ := pr
        simp [skinLoop, hm, ht]

theorem count_vertices_mapVec3 (id : ℕ) (f : Vec3 → Vec3) (m : Mesh) :
    (mapVec3Channel id f m).count_vertices = m.count_vertices := by
  unfold Mesh.count_vertices mapVec3Channel
  simp only [mapAttrsVec3_lengths]

theorem f32x3_roundtrip (v : Vec3) : f32x3_vec3 (vec3_f32x3 v) = v := rfl

theorem vec3Channel_mapAttrs_self (id : ℕ) (f : Vec3 → Vec3)
    (l : List (ℕ × VertexAttributeValues)) :
    vec3Channel id (mapAttrsVec3 id f l) = (vec3Channel id l).map f := by
  unfold vec3Channel
  rw [mapAttrsVec3_lookup]
  cases List.lookup id l with
  | none => rfl
  | some v => cases v <;> simp [List.map_map, Function.comp, f32x3_roundtrip]

theorem vec3Channel_mapAttrs_ne (id a : ℕ) (h : a ≠ id) (f : Vec3 → Vec3)
    (l : List (ℕ × VertexAttributeValues)) :
    vec3Channel a (mapAttrsVec3 id f l) = vec3Channel a l := by
  unfold vec3Channel
  rw [mapAttrsVec3_lookup]
  cases List.lookup a l with
  | none => rfl
  | some v => simp [h]

theorem attribute_mapVec3_ne (id a : ℕ) (h : a ≠ id) (f : Vec3 → Vec3) (m : Mesh) :
    (mapVec3Channel id f m).attribute a = m.attribute a := by
  unfold Mesh.attribute mapVec3Channel
  rw [mapAttrsVec3_lookup]
  cases List.lookup a m.attributes with
  | none => rfl
  | some v => simp [h]

theorem mesh_len_mapVec3 (id : ℕ) (f : Vec3 → Vec3) (m : Mesh) :
    mesh_len (mapVec3Channel id f m) = mesh_len m := by
  unfold mesh_len Mesh.attribute mapVec3Channel
  rw [mapAttrsVec3_lookup]
  cases List.lookup ATTRIBUTE_POSITION m.attributes with
  | none => rfl
  | some v =>
    by_cases hid : (ATTRIBUTE_POSITION : ℕ) = id <;> cases v <;> simp [hid]

/-- A sample one-vertex mesh holding every channel the library accesses,
used to instantiate theorems with hypotheses. -/
def sampleMesh : Mesh :=
  { primitive_topology := .TriangleList,
    attributes := [(0, .Float32x3 [(1, 2, 3)]), (1, .Float32x3 [(0, 0, 1)]),
      (2, .Float32x2 [(0, 1)]), (5, .Float32x4 [(1, 0, 0, 0)]),
      (6, .Uint16x4 [(0, 0, 0, 0)])],
    indices := some (.U32 [0, 0, 0]) }

/-- A sample transform with a translation component. -/
def sampleTransform : Transform := ⟨⟨1, 2, 3⟩, ⟨0, 0, 0, 1⟩, ⟨1, 1, 1⟩⟩

/-- C2: mesh_with_transform never fails; for every mesh (in particular every
well-formed one) and every transform it returns some transformed mesh whose
positions are the matrix images of the input positions, so a none result
could only arise (vacuously) for a mesh without a position channel. -/
theorem c2_transform_never_fails (sq : ℚ → ℚ) (m : Mesh) (t : Transform) :
    ∃ m2, mesh_with_transform sq m t = some m2 ∧
      mesh_positions m2 =
        (mesh_positions m).map fun p => (Transform.compute_matrix t).transform_point3 p := by
  refine ⟨_, rfl, ?_⟩
  rw [mesh_positions_eq_vec3Channel, mesh_positions_eq_vec3Channel]
  simp only [mapVec3Channel]
  rw [vec3Channel_mapAttrs_ne ATTRIBUTE_NORMAL ATTRIBUTE_POSITION (by decide),
    vec3Channel_mapAttrs_self]

/-- C7: for every transform and mesh with at least one vertex, the
transformed mesh keeps the vertex count, the index buffer and every channel
other than position and normal exactly. -/
theorem c7_transform_preserves (sq : ℚ → ℚ) (m : Mesh) (t : Transform)
    (h : 1 ≤ mesh_len m) :
    ∃ m2, mesh_with_transform sq m t = some m2 ∧
      m2.count_vertices = m.count_vertices ∧ mesh_len m2 = mesh_len m ∧
      m2.indices = m.indices ∧
      ∀ a, a ≠ ATTRIBUTE_POSITION → a ≠ ATTRIBUTE_NORMAL →
        m2.attribute a = m.attribute a := by
  refine ⟨_, rfl, ?_, ?_, rfl, ?_⟩
  · rw [count_vertices_mapVec3, count_vertices_mapVec3]
  · rw [mesh_len_mapVec3, mesh_len_mapVec3]
  · intro a ha hn
    rw [attribute_mapVec3_ne ATTRIBUTE_NORMAL a hn, attribute_mapVec3_ne ATTRIBUTE_POSITION a ha]

/-- C7 witness at a concrete one-vertex mesh and transform. -/
theorem c7_witness :
    ((mesh_with_transform (fun _ => 0) sampleMesh sampleTransform).getD
        mesh_empty_default).count_vertices = sampleMesh.count_vertices ∧
    ((mesh_with_transform (fun _ => 0) sampleMesh sampleTransform).getD
        mesh_empty_default).indices = sampleMesh.indices ∧
    ((mesh_with_transform (fun _ => 0) sampleMesh sampleTransform).getD
        mesh_empty_default).attribute 2 = sampleMesh.attribute 2 := by
  obtain ⟨m2, he, hc, hl, hi, ha⟩ :=
    c7_transform_preserves (fun _ => 0) sampleMesh sampleTransform (by decide)
  simp only [he, Option.getD_some]
  exact ⟨hc, hi, ha 2 (by decide) (by decide)⟩

/-- C8: each typed accessor returns the channel's tuples viewed through the
vector types when the channel is present under the compatible encoding, and
the empty sequence when the channel is absent or otherwise encoded. -/
theorem c8_accessor_views (m : Mesh) :
    ((∀ v, m.attribute ATTRIBUTE_POSITION = some (.Float32x3 v) →
        mesh_positions m = v.map f32x3_vec3) ∧
      ((∀ v, m.attribute ATTRIBUTE_POSITION ≠ some (.Float32x3 v)) →
        mesh_positions m = [])) ∧
    ((∀ v, m.attribute ATTRIBUTE_JOINT_WEIGHT = some (.Float32x4 v) →
        mesh_joint_weights m = v.map f32x4_vec4) ∧
      ((∀ v, m.attribute ATTRIBUTE_JOINT_WEIGHT ≠ some (.Float32x4 v)) →
        mesh_joint_weights m = [])) ∧
    ((∀ v, m.attribute ATTRIBUTE_UV_0 = some (.Float32x2 v) →
        mesh_uvs m = v.map f32x2_vec2) ∧
      ((∀ v, m.attribute ATTRIBUTE_UV_0 ≠ some (.Float32x2 v)) →
        mesh_uvs m = [])) := by
  refine ⟨⟨?_, ?_⟩, ⟨?_, ?_⟩, ⟨?_, ?_⟩⟩
  · intro v h; simp [mesh_positions, h]
  · intro h
    unfold mesh_positions
    cases hx : m.attribute ATTRIBUTE_POSITION with
    | none => rfl
    | some v => cases v <;> first | rfl | exact absurd hx (h _)
  · intro v h; simp [mesh_joint_weights, h]
  · intro h
    unfold mesh_joint_weights
    cases hx : m.attribute ATTRIBUTE_JOINT_WEIGHT with
    | none => rfl
    | some v => cases v <;> first | rfl | exact absurd hx (h _)
  · intro v h; simp [mesh_uvs, h]
  · intro h
    unfold mesh_uvs
    cases hx : m.attribute ATTRIBUTE_UV_0 with
    | none => rfl
    | some v => cases v <;> first | rfl | exact absurd hx (h _)

/-- C8 witness: a present position channel yields its view, a missing joint
weight channel yields the empty sequence. -/
theorem c8_witness :
    mesh_positions sampleMesh = [⟨1, 2, 3⟩] ∧
    mesh_joint_weights mesh_empty_default = [] := by
  refine ⟨?_, ?_⟩
  · have h := (c8_accessor_views sampleMesh).1.1 [(1, 2, 3)] rfl
    simpa [f32x3_vec3] using h
  · exact (c8_accessor_views mesh_empty_default).2.1.2 (fun v hv => by
      rw [show mesh_empty_default.attribute ATTRIBUTE_JOINT_WEIGHT = none from rfl] at hv
      exact Option.noConfusion hv)

/-- C1 counterexample: with a single joint whose lookup fails,
mesh_with_skinned_transform returns the unmodified mesh wrapped in some
rather than none. -/
theorem c1_counterexample :
    (fun _ : ℕ => (none : Option Mat4)) 0 = none ∧
    mesh_with_skinned_transform (fun _ => 0) mesh_empty_default ⟨0, [0]⟩ (fun _ => none)
      (fun _ => some [Mat4.identity]) = some (some mesh_empty_default) ∧
    mesh_with_skinned_transform (fun _ => 0) mesh_empty_default ⟨0, [0]⟩ (fun _ => none)
      (fun _ => some [Mat4.identity]) ≠ some none := by
  refine ⟨rfl, rfl, by decide⟩

/-- C1 amended: when any joint paired with an inverse bindpose cannot be
resolved, skinned_mesh_joints returns none and mesh_with_skinned_transform
returns the input mesh unchanged wrapped in some, not none. -/
theorem c1_unresolved_joint_returns_clone (sq : ℚ → ℚ) (m : Mesh) (skin : SkinnedMesh)
    (q : ℕ → Option Mat4) (assets : ℕ → Option (List Mat4)) (ibps : List Mat4)
    (h1 : assets skin.inverse_bindposes = some ibps)
    (h2 : ∃ p ∈ ibps.zip skin.joints, q p.2 = none) :
    skinned_mesh_joints skin assets q = none ∧
    mesh_with_skinned_transform sq m skin q assets = some (some m) := by
  have hj : skinned_mesh_joints skin assets q = none := by
    unfold skinned_mesh_joints
    rw [h1]
    exact jointsLoop_none q _ h2
  exact ⟨hj, by simp [mesh_with_skinned_transform, hj]⟩

/-- C1 witness for the amended statement at a concrete unresolvable
skeleton. -/
theorem c1_witness :
    skinned_mesh_joints ⟨0, [0]⟩ (fun _ => some [Mat4.identity]) (fun _ => none) = none ∧
    mesh_with_skinned_transform (fun _ => 0) sampleMesh ⟨0, [0]⟩ (fun _ => none)
      (fun _ => some [Mat4.identity]) = some (some sampleMesh) :=
  c1_unresolved_joint_returns_clone (fun _ => 0) sampleMesh ⟨0, [0]⟩ (fun _ => none)
    (fun _ => some [Mat4.identity]) [Mat4.identity] rfl
    ⟨(Mat4.identity, 0), by simp, rfl⟩

/-- C3: when the destination has a channel the source lacks, mesh_append
returns AttributeNotFound naming a channel that is present in the
destination and absent from the source, and the destination is returned
completely unmodified. -/
theorem c3_append_missing_attribute (dest src : Mesh) (a : ℕ) (v : VertexAttributeValues)
    (hmem : (a, v) ∈ dest.attributes) (hnone : src.attribute a = none) :
    ∃ a2, mesh_append dest src = some (dest, .error (.AttributeNotFound a2)) ∧
      (∃ v2, (a2, v2) ∈ dest.attributes) ∧ src.attribute a2 = none := by
  have hsome : (dest.attributes.find? fun p => (src.attribute p.1).isNone).isSome := by
    rw [List.find?_isSome]
    exact ⟨(a, v), hmem, by simp [hnone]⟩
  rw [Option.isSome_iff_exists] at hsome
  obtain ⟨p, hp⟩ := hsome
  refine ⟨p.1, ?_, ⟨p.2, ?_⟩, ?_⟩
  · simp [mesh_append, hp]
  · exact List.mem_of_find?_eq_some hp
  · have hpred := List.find?_some hp
    simpa [Option.isNone_iff_eq_none] using hpred

/-- C3 witness: a mesh with joint channels appended onto by the default
empty mesh (which lacks them) errors on the first missing channel and
leaves the destination untouched. -/
theorem c3_witness :
    mesh_append sampleMesh mesh_empty_default =
      some (sampleMesh, .error (.AttributeNotFound 5)) := by
  obtain ⟨a2, heq, hmem2, hnone2⟩ := c3_append_missing_attribute sampleMesh mesh_empty_default 5
    (.Float32x4 [(1, 0, 0, 0)]) (by decide) rfl
  decide

/-- C5: whenever mesh_append succeeds, the destination keeps its index
width and its new index buffer is the old one followed by the source
indices each rebased by the destination's starting vertex count, reduced
at the destination's index width. -/
theorem c5_index_rebase (dest src d : Mesh) (di si : Indices)
    (happ : mesh_append dest src = some (d, .ok))
    (hdi : dest.indices = some di) (hsi : src.indices = some si) :
    ∃ d_i, d.indices = some d_i ∧ d_i.isU16 = di.isU16 ∧
      d_i.vals = di.vals ++ si.vals.map fun sv =>
        (sv + dest.count_vertices) % di.width := by
  cases hf : dest.attributes.find? fun p => (src.attribute p.1).isNone with
  | some p =>
    rw [show mesh_append dest src = some (dest, .error (.AttributeNotFound p.1)) from by
      simp [mesh_append, hf]] at happ
    simp at happ
  | none =>
    cases di with
    | U16 dv =>
      have hval : mesh_append dest src =
          some ({ dest with
            indices := some (.U16 (dv ++ si.vals.map fun sv =>
              (sv % 65536 + dest.count_vertices % 65536) % 65536)),
            attributes := dest.attributes.map fun p =>
              (p.1, extendValues p.2 (src.attribute p.1)) }, .ok) := by
        unfold mesh_append
        rw [hf, hsi, hdi]
      rw [hval] at happ
      have hd : ({ dest with
          indices := some (.U16 (dv ++ si.vals.map fun sv =>
            (sv % 65536 + dest.count_vertices % 65536) % 65536)),
          attributes := dest.attributes.map fun p =>
            (p.1, extendValues p.2 (src.attribute p.1)) } : Mesh) = d :=
        congrArg Prod.fst (Option.some.inj happ)
      subst hd
      refine ⟨_, rfl, rfl, ?_⟩
      simp only [Indices.vals, Indices.width]
      congr 1
      apply List.map_congr_left
      intro x _
      omega
    | U32 dv =>
      have hval : mesh_append dest src =
          some ({ dest with
            indices := some (.U32 (dv ++ si.vals.map fun sv =>
              (sv % 4294967296 + dest.count_vertices % 4294967296) % 4294967296)),
            attributes := dest.attributes.map fun p =>
              (p.1, extendValues p.2 (src.attribute p.1)) }, .ok) := by
        unfold mesh_append
        rw [hf, hsi, hdi]
      rw [hval] at happ
      have hd : ({ dest with
          indices := some (.U32 (dv ++ si.vals.map fun sv =>
            (sv % 4294967296 + dest.count_vertices % 4294967296) % 4294967296)),
          attributes := dest.attributes.map fun p =>
            (p.1, extendValues p.2 (src.attribute p.1)) } : Mesh) = d :=
        congrArg Prod.fst (Option.some.inj happ)
      subst hd
      refine ⟨_, rfl, rfl, ?_⟩
      simp only [Indices.vals, Indices.width]
      congr 1
      apply List.map_congr_left
      intro x _
      omega

/-- C5 witness: appending the one-triangle sample mesh to itself rebases
the appended indices by the starting vertex count 1 at 32-bit width. -/
theorem c5_witness :
    (mesh_append sampleMesh sampleMesh).isSome ∧
    ((mesh_append sampleMesh sampleMesh).getD (sampleMesh, .ok)).1.indices =
      some (.U32 ([0, 0, 0] ++ [1, 1, 1])) := by
  have happ : mesh_append sampleMesh sampleMesh =
      some (((mesh_append sampleMesh sampleMesh).getD (sampleMesh, .ok)).1, .ok) := by decide
  obtain ⟨d_i, hdi2, hw, hv⟩ := c5_index_rebase sampleMesh sampleMesh
    ((mesh_append sampleMesh sampleMesh).getD (sampleMesh, .ok)).1 (.U32 [0, 0, 0])
    (.U32 [0, 0, 0]) happ rfl rfl
  refine ⟨by rw [happ]; rfl, ?_⟩
  rw [hdi2]
  cases d_i with
  | U16 w => simp [Indices.isU16] at hw
  | U32 w =>
    congr 1
    have : w = Indices.vals (.U32 w) := rfl
    rw [show w = Indices.vals (.U32 w) from rfl, hv]
    decide

theorem lookup_map_extend (src : Mesh) (l : List (ℕ × VertexAttributeValues)) (a : ℕ) :
    List.lookup a (l.map fun p => (p.1, extendValues p.2 (src.attribute p.1))) =
      (List.lookup a l).map (fun v => extendValues v (src.attribute a)) := by
  induction l with
  | nil => rfl
  | cons p t ih =>
    obtain ⟨k, v⟩ := p
    by_cases h : a = k
    · subst h; simp [List.lookup]
    · have hbeq : (a == k) = false := by simpa using h
      simp [List.lookup, hbeq, ih]

theorem extend_skip_lookup (dest src : Mesh) (a : ℕ) (v s : VertexAttributeValues)
    (hv : dest.attribute a = some v) (hs : src.attribute a = some s)
    (hne : v.encoding ≠ s.encoding) :
    List.lookup a (dest.attributes.map fun p =>
      (p.1, extendValues p.2 (src.attribute p.1))) = some v := by
  have hv2 : List.lookup a dest.attributes = some v := hv
  rw [lookup_map_extend src dest.attributes a, hv2, hs]
  simp [extendValues_ne_encoding v s hne]

/-- C6: when every destination channel exists in the source but one is
stored under a different encoding, mesh_append still succeeds and appends
nothing to that channel. -/
theorem c6_encoding_mismatch_skip (dest src : Mesh)
    (hdi : dest.indices.isSome) (hsi : src.indices.isSome)
    (hall : ∀ p ∈ dest.attributes, (src.attribute p.1).isSome) :
    ∃ d, mesh_append dest src = some (d, .ok) ∧
      ∀ (a : ℕ) (v s : VertexAttributeValues), dest.attribute a = some v →
        src.attribute a = some s → v.encoding ≠ s.encoding →
        d.attribute a = some v := by
  have hf : dest.attributes.find? (fun p => (src.attribute p.1).isNone) = none := by
    rw [List.find?_eq_none]
    intro x hx
    have h := hall x hx
    rw [Option.isSome_iff_exists] at h
    obtain ⟨y, hy⟩ := h
    simp [hy]
  rw [Option.isSome_iff_exists] at hdi hsi
  obtain ⟨di, hdi⟩ := hdi
  obtain ⟨si, hsi⟩ := hsi
  cases di with
  | U16 dv =>
    have hval : mesh_append dest src =
        some ({ dest with
          indices := some (.U16 (dv ++ si.vals.map fun sv =>
            (sv % 65536 + dest.count_vertices % 65536) % 65536)),
          attributes := dest.attributes.map fun p =>
            (p.1, extendValues p.2 (src.attribute p.1)) }, .ok) := by
      unfold mesh_append
      rw [hf, hsi, hdi]
    exact ⟨_, hval, fun a v s hv hs hne => extend_skip_lookup dest src a v s hv hs hne⟩
  | U32 dv =>
    have hval : mesh_append dest src =
        some ({ dest with
          indices := some (.U32 (dv ++ si.vals.map fun sv =>
            (sv % 4294967296 + dest.count_vertices % 4294967296) % 4294967296)),
          attributes := dest.attributes.map fun p =>
            (p.1, extendValues p.2 (src.attribute p.1)) }, .ok) := by
      unfold mesh_append
      rw [hf, hsi, hdi]
    exact ⟨_, hval, fun a v s hv hs hne => extend_skip_lookup dest src a v s hv hs hne⟩

/-- Destination mesh for the C6 witness: a lone uv channel stored as two
floats. -/
def c6dest : Mesh :=
  { primitive_topology := .TriangleList,
    attributes := [(2, .Float32x2 [(0, 0)])],
    indices := some (.U32 []) }

/-- Source mesh for the C6 witness: the same channel id stored as three
floats. -/
def c6src : Mesh :=
  { primitive_topology := .TriangleList,
    attributes := [(2, .Float32x3 [(1, 1, 1)])],
    indices := some (.U32 []) }

/-- C6 witness: the mismatched channel is skipped while the call succeeds
and the destination channel keeps its single entry. -/
theorem c6_witness :
    (mesh_append c6dest c6src).isSome ∧
    ((mesh_append c6dest c6src).getD (c6dest, .ok)).1.attribute 2 =
      some (.Float32x2 [(0, 0)]) := by
  obtain ⟨d, hval, hskip⟩ := c6_encoding_mismatch_skip c6dest c6src (by decide) (by decide)
    (by decide)
  refine ⟨by rw [hval]; rfl, ?_⟩
  rw [hval]
  exact hskip 2 (.Float32x2 [(0, 0)]) (.Float32x3 [(1, 1, 1)]) rfl rfl (by decide)

/-- C10: appending a source mesh whose channel set and encodings match the
empty default mesh onto that empty mesh succeeds and yields the source's
channel values and index values (at the destination's 32-bit width). -/
theorem c10_append_to_empty (src : Mesh) (ps ns : List (ℚ × ℚ × ℚ)) (uvs : List (ℚ × ℚ))
    (si : Indices)
    (h0 : src.attribute ATTRIBUTE_POSITION = some (.Float32x3 ps))
    (h1 : src.attribute ATTRIBUTE_NORMAL = some (.Float32x3 ns))
    (h2 : src.attribute ATTRIBUTE_UV_0 = some (.Float32x2 uvs))
    (hsi : src.indices = some si)
    (hbound : ∀ x ∈ si.vals, x < 4294967296) :
    ∃ d, mesh_append mesh_empty_default src = some (d, .ok) ∧
      d.attribute ATTRIBUTE_POSITION = some (.Float32x3 ps) ∧
      d.attribute ATTRIBUTE_NORMAL = some (.Float32x3 ns) ∧
      d.attribute ATTRIBUTE_UV_0 = some (.Float32x2 uvs) ∧
      d.indices = some (.U32 si.vals) := by
  have h0x : src.attribute 0 = some (.Float32x3 ps) := h0
  have h1x : src.attribute 1 = some (.Float32x3 ns) := h1
  have h2x : src.attribute 2 = some (.Float32x2 uvs) := h2
  have hf : mesh_empty_default.attributes.find?
      (fun p => (src.attribute p.1).isNone) = none := by
    rw [show mesh_empty_default.attributes =
      [(0, .Float32x3 []), (1, .Float32x3 []), (2, .Float32x2 [])] from rfl]
    simp [List.find?, h0x, h1x, h2x]
  have hmap : si.vals.map (fun sv =>
      (sv % 4294967296 + mesh_empty_default.count_vertices % 4294967296) % 4294967296) =
      si.vals := by
    rw [show mesh_empty_default.count_vertices = 0 from rfl]
    have hpt : ∀ x ∈ si.vals, (x % 4294967296 + 0 % 4294967296) % 4294967296 = x := by
      intro x hx
      have := hbound x hx
      omega
    rw [List.map_congr_left hpt]
    exact List.map_id si.vals
  have hval : mesh_append mesh_empty_default src =
      some (⟨.TriangleList,
        [(0, extendValues (.Float32x3 []) (src.attribute 0)),
         (1, extendValues (.Float32x3 []) (src.attribute 1)),
         (2, extendValues (.Float32x2 []) (src.attribute 2))],
        some (.U32 ([] ++ si.vals.map fun sv =>
          (sv % 4294967296 + mesh_empty_default.count_vertices % 4294967296) %
            4294967296))⟩, .ok) := by
    unfold mesh_append
    rw [hf, hsi]
    rfl
  have h0y : List.lookup 0 src.attributes = some (.Float32x3 ps) := h0x
  have h1y : List.lookup 1 src.attributes = some (.Float32x3 ns) := h1x
  have h2y : List.lookup 2 src.attributes = some (.Float32x2 uvs) := h2x
  refine ⟨_, hval, ?_, ?_, ?_, ?_⟩
  · simp [Mesh.attribute, List.lookup, ATTRIBUTE_POSITION, h0y, extendValues]
  · simp [Mesh.attribute, List.lookup, ATTRIBUTE_NORMAL, h1y, extendValues]
  · simp [Mesh.attribute, List.lookup, ATTRIBUTE_UV_0, h2y, extendValues]
  · rw [show (⟨.TriangleList,
        [(0, extendValues (.Float32x3 []) (src.attribute 0)),
         (1, extendValues (.Float32x3 []) (src.attribute 1)),
         (2, extendValues (.Float32x2 []) (src.attribute 2))],
        some (.U32 ([] ++ si.vals.map fun sv =>
          (sv % 4294967296 + mesh_empty_default.count_vertices % 4294967296) %
            4294967296))⟩ : Mesh).indices =
      some (.U32 ([] ++ si.vals.map fun sv =>
        (sv % 4294967296 + mesh_empty_default.count_vertices % 4294967296) %
          4294967296)) from rfl, List.nil_append, hmap]

/-- Source mesh for the C10 witness: one vertex and one triangle under the
default channel set and encodings. -/
def c10src : Mesh :=
  { primitive_topology := .TriangleList,
    attributes := [(0, .Float32x3 [(5, 5, 5)]), (1, .Float32x3 [(1, 0, 0)]),
      (2, .Float32x2 [(1, 1)])],
    indices := some (.U16 [0, 0, 0]) }

/-- C10 witness at the concrete one-vertex source mesh. -/
theorem c10_witness :
    (mesh_append mesh_empty_default c10src).isSome ∧
    ((mesh_append mesh_empty_default c10src).getD
        (mesh_empty_default, .ok)).1.attribute 0 = some (.Float32x3 [(5, 5, 5)]) ∧
    ((mesh_append mesh_empty_default c10src).getD
        (mesh_empty_default, .ok)).1.indices = some (.U32 [0, 0, 0]) := by
  obtain ⟨d, hval, ha0, ha1, ha2, hi⟩ := c10_append_to_empty c10src [(5, 5, 5)] [(1, 0, 0)]
    [(1, 1)] (.U16 [0, 0, 0]) rfl rfl rfl rfl (by decide)
  simp only [hval, Option.getD_some, Option.isSome_some]
  exact ⟨trivial, ha0, hi⟩

/-- C4: failures are signaled only through return values; under the stated
preconditions (meshes own index buffers, joint indices index into the
resolved joint list) no operation reaches a panic, modelled here as no
operation returning the outer none. -/
theorem c4_no_panic_under_preconditions :
    (∀ dest src : Mesh, dest.indices.isSome → src.indices.isSome →
      (mesh_append dest src).isSome) ∧
    (∀ (sq : ℚ → ℚ) (m : Mesh) (t : Transform), (mesh_with_transform sq m t).isSome) ∧
    (∀ (sq : ℚ → ℚ) (m : Mesh) (skin : SkinnedMesh) (q : ℕ → Option Mat4)
      (assets : ℕ → Option (List Mat4)),
      (∀ js, skinned_mesh_joints skin assets q = some js →
        ∀ x ∈ mesh_joint_indices m,
          x.1 < js.length ∧ x.2.1 < js.length ∧ x.2.2.1 < js.length ∧
            x.2.2.2 < js.length) →
      (mesh_with_skinned_transform sq m skin q assets).isSome) := by
  refine ⟨?_, ?_, ?_⟩
  · intro dest src hdi hsi
    cases hf : dest.attributes.find? fun p => (src.attribute p.1).isNone with
    | some p => simp [mesh_append, hf]
    | none =>
      rw [Option.isSome_iff_exists] at hdi hsi
      obtain ⟨di, hdi⟩ := hdi
      obtain ⟨si, hsi⟩ := hsi
      cases di <;> simp [mesh_append, hf, hdi, hsi]
  · intro sq m t
    rfl
  · intro sq m skin q assets h
    cases hj : skinned_mesh_joints skin assets q with
    | none => simp [mesh_with_skinned_transform, hj]
    | some js =>
      have hloop := skinLoop_isSome js (mesh_positions m) (mesh_joint_indices m)
        (mesh_joint_weights m) (h js hj)
      rw [Option.isSome_iff_exists] at hloop
      obtain ⟨pr, hloop⟩ := hloop
      obtain ⟨nps, models⟩ := pr
      simp [mesh_with_skinned_transform, hj, hloop]

/-- C4 witness: no panic on concrete inputs satisfying the preconditions. -/
theorem c4_witness :
    (mesh_append sampleMesh sampleMesh).isSome ∧
    (mesh_with_transform (fun _ => 0) sampleMesh sampleTransform).isSome ∧
    (mesh_with_skinned_transform (fun _ => 0) mesh_empty_default ⟨0, [0]⟩
      (fun _ => some Mat4.identity) (fun _ => some [Mat4.identity])).isSome := by
  refine ⟨c4_no_panic_under_preconditions.1 sampleMesh sampleMesh (by decide) (by decide),
    c4_no_panic_under_preconditions.2.1 (fun _ => 0) sampleMesh sampleTransform,
    c4_no_panic_under_preconditions.2.2 (fun _ => 0) mesh_empty_default ⟨0, [0]⟩
      (fun _ => some Mat4.identity) (fun _ => some [Mat4.identity]) ?_⟩
  intro js _ x hx
  rw [show mesh_joint_indices mesh_empty_default = [] from rfl] at hx
  exact absurd hx (List.not_mem_nil x)

theorem mesh_normals_mapVec3_pos (f : Vec3 → Vec3) (m : Mesh) :
    mesh_normals (mapVec3Channel ATTRIBUTE_POSITION f m) = mesh_normals m := by
  rw [mesh_normals_eq_vec3Channel, mesh_normals_eq_vec3Channel]
  exact vec3Channel_mapAttrs_ne ATTRIBUTE_POSITION ATTRIBUTE_NORMAL (by decide) f m.attributes

/-- C9: with a single resolvable joint whose skin matrix equals the given
transform's matrix, every vertex indexed to that joint with full weight on
its first slot, and channels of coherent lengths, skinning coincides with
mesh_with_transform. -/
theorem c9_single_joint_equals_transform (sq : ℚ → ℚ) (m : Mesh) (skin : SkinnedMesh)
    (q : ℕ → Option Mat4) (assets : ℕ → Option (List Mat4)) (t : Transform)
    (ibp g : Mat4) (e : ℕ)
    (ha : assets skin.inverse_bindposes = some [ibp])
    (hj : skin.joints = [e])
    (hq : q e = some g)
    (hskin : g.mul ibp = t.compute_matrix)
    (hidx : ∀ x ∈ mesh_joint_indices m, x = (0, 0, 0, 0))
    (hwts : ∀ w ∈ mesh_joint_weights m, w = (⟨1, 0, 0, 0⟩ : Vec4))
    (hlidx : (mesh_joint_indices m).length = (mesh_positions m).length)
    (hlwts : (mesh_joint_weights m).length = (mesh_positions m).length)
    (hlns : (mesh_normals m).length ≤ (mesh_positions m).length)
    (hnd : (m.attributes.map Prod.fst).Nodup) :
    mesh_with_skinned_transform sq m skin q assets = some (mesh_with_transform sq m t) := by
  have hjm : skinned_mesh_joints skin assets q = some [t.compute_matrix] := by
    unfold skinned_mesh_joints
    rw [ha, hj]
    show jointsLoop q [(ibp, e)] = some [t.compute_matrix]
    simp [jointsLoop, hq, hskin]
  have hloop := skinLoop_single t.compute_matrix (mesh_positions m) (mesh_joint_indices m)
    (mesh_joint_weights m) hidx hwts hlidx hlwts
  have hm1 : setVec3Channel ATTRIBUTE_POSITION
      ((mesh_positions m).map fun p => t.compute_matrix.transform_point3 p) m =
      mapVec3Channel ATTRIBUTE_POSITION (fun p => t.compute_matrix.transform_point3 p) m := by
    unfold setVec3Channel mapVec3Channel
    rw [mesh_positions_eq_vec3Channel]
    exact congrArg (fun atts => { m with attributes := atts })
      (setAttrsVec3_eq_map ATTRIBUTE_POSITION _ m.attributes hnd)
  simp only [mesh_with_skinned_transform, hjm, hloop]
  rw [hm1]
  rw [mesh_normals_mapVec3_pos]
  rw [normalsZip_replicate sq t.compute_matrix (mesh_normals m)
    (mesh_positions m).length hlns]
  have hndm : ((mapVec3Channel ATTRIBUTE_POSITION
      (fun p => t.compute_matrix.transform_point3 p) m).attributes.map Prod.fst).Nodup := by
    unfold mapVec3Channel
    rw [mapAttrsVec3_keys]
    exact hnd
  have hnm1 : mesh_normals m = mesh_normals (mapVec3Channel ATTRIBUTE_POSITION
      (fun p => t.compute_matrix.transform_point3 p) m) :=
    (mesh_normals_mapVec3_pos _ m).symm
  have hm2 : setVec3Channel ATTRIBUTE_NORMAL
      ((mesh_normals m).map fun n => Vec3.normalize_or_zero sq
        ((mat3_from_cols_xyz t.compute_matrix.inverse.transpose).mul_vec3 n))
      (mapVec3Channel ATTRIBUTE_POSITION (fun p => t.compute_matrix.transform_point3 p) m) =
      mapVec3Channel ATTRIBUTE_NORMAL
        (fun n => Vec3.normalize_or_zero sq
          ((mat3_from_cols_xyz t.compute_matrix.inverse.transpose).mul_vec3 n))
        (mapVec3Channel ATTRIBUTE_POSITION (fun p => t.compute_matrix.transform_point3 p) m) := by
    rw [hnm1, mesh_normals_eq_vec3Channel]
    unfold setVec3Channel mapVec3Channel
    exact congrArg (fun atts =>
        { mapVec3Channel ATTRIBUTE_POSITION (fun p => t.compute_matrix.transform_point3 p) m
          with attributes := atts })
      (setAttrsVec3_eq_map ATTRIBUTE_NORMAL _ _ hndm)
  rw [hm2]
  rfl

theorem Mat4.mul_identity_right (a : Mat4) : a.mul Mat4.identity = a := by
  obtain ⟨⟨ax, ay, az, aw⟩, ⟨bx, by2, bz, bw⟩, ⟨cx, cy, cz, cw⟩, ⟨dx, dy, dz, dw⟩⟩ := a
  simp [Mat4.mul, Mat4.mul_vec4, Vec4.smul, Vec4.add, Mat4.identity]

/-- C9 witness: a concrete one-vertex skinned mesh with a single joint
whose skin matrix is the sample transform's matrix. -/
theorem c9_witness :
    mesh_with_skinned_transform (fun _ => 0) sampleMesh ⟨0, [7]⟩
      (fun _ => some sampleTransform.compute_matrix) (fun _ => some [Mat4.identity]) =
    some (mesh_with_transform (fun _ => 0) sampleMesh sampleTransform) :=
  c9_single_joint_equals_transform (fun _ => 0) sampleMesh ⟨0, [7]⟩
    (fun _ => some sampleTransform.compute_matrix) (fun _ => some [Mat4.identity])
    sampleTransform Mat4.identity sampleTransform.compute_matrix 7
    rfl rfl rfl (Mat4.mul_identity_right sampleTransform.compute_matrix) (by decide)
    (by decide) (by decide) (by decide) (by decide) (by decide)
